import Mathlib

/-!
Verification development for `tw::TimedWorker` (src/include/tw/timed_worker.hpp).

The C++ class is embedded shallowly:

* `WorkerState` mirrors the member fields of `TimedWorker` together with the
  state of the `std::stop_token` shared with the worker thread.  Times are
  natural numbers (milliseconds on `steady_clock`); `absDeadline` is fixed at
  construction to construction instant + timeout (line 87 of the header).
* `requestStop` models `_thr.request_stop()` (used both by the public
  `request_stop()` at line 30 and by the destructor at line 59): the first
  request marks the token stopped and synchronously runs any registered
  `std::stop_callback`; the runner's callback (lines 90-92) stores
  `_emergency := true`.
* `registerCallback` models the `std::stop_callback` construction at the top
  of the thread body: if a stop was already requested, the callback is invoked
  immediately in the registering thread.
* `taskRunner` models the rest of the thread body (lines 94-101): run the user
  callable, catch `std::exception` / everything else, write the diagnostic to
  the log sink and finally store `_done := true`.  The log writes in the two
  catch handlers are NOT themselves guarded by a try/catch in the source, so a
  sink whose write throws makes the runner propagate that failure (modelled by
  `Except.error ()`); `_done` is then never stored.
* `dtorRun` models the destructor (lines 45-80).  `threadEnd` is the absolute
  time at which the worker thread terminates (`none` = never).  The join is
  launched through `std::async` (lines 64-65); per the C++ standard the future
  returned by `std::async` blocks in its own destructor until the launched
  task -- here `thr.join()` -- completes, so in the timed-out branch the
  destructor only returns once the worker thread itself has exited.  This is
  reflected in the `endTime` field of the result (`none` = the destructor
  never returns).
* `MemberKind` and the `defaultedMove*Usable` definitions embed the C++
  special-member-function rules applied to `TimedWorker`'s member list: the
  class declares `TimedWorker(TimedWorker&&) noexcept = default` (line 40),
  but `std::atomic_bool` members are neither move-constructible nor
  move-assignable and the reference member `_log` cannot be rebound, so the
  defaulted move operations are defined as deleted.
-/

namespace TW

/-- Member state of `tw::TimedWorker` plus the shared stop-token state.
`thrJoinable` is `_thr.joinable()`; `stopRequested` is the state of the stop
token; `cbRegistered` records whether the worker thread has constructed its
`std::stop_callback` (lines 90-92). -/
structure WorkerState where
  timeout : Nat
  absDeadline : Nat
  thrJoinable : Bool
  stopRequested : Bool
  cbRegistered : Bool
  done : Bool
  emergency : Bool
  detached : Bool
deriving Repr, DecidableEq

/-- The state immediately after the private constructor (lines 86-103) run at
absolute time `ctorTime`: `_absDeadline = Clock::now() + to`, the thread has
been spawned (joinable), all flags false. -/
def initState (timeout ctorTime : Nat) : WorkerState :=
  { timeout := timeout
    absDeadline := ctorTime + timeout
    thrJoinable := true
    stopRequested := false
    cbRegistered := false
    done := false
    emergency := false
    detached := false }

/-- `_thr.request_stop()`: the first request marks the token stopped and runs
the registered stop callback synchronously on the calling thread; the
runner's callback stores `_emergency := true` (lines 90-92).  A second
request is a no-op. -/
def requestStop (s : WorkerState) : WorkerState :=
  if s.stopRequested then s
  else { s with stopRequested := true, emergency := s.emergency || s.cbRegistered }

/-- Construction of the `std::stop_callback` in the thread body: if stop was
already requested the callback is invoked immediately. -/
def registerCallback (s : WorkerState) : WorkerState :=
  { s with cbRegistered := true, emergency := s.emergency || s.stopRequested }

/-- `emergency_stop()` (line 33): `_emergency.store(true)`. -/
def emergencyStop (s : WorkerState) : WorkerState :=
  { s with emergency := true }

/-- The final statement of the thread body (line 101):
`_done.store(true, release)`. -/
def markDone (s : WorkerState) : WorkerState :=
  { s with done := true }

/-- The fixed text of the recognized-failure diagnostic (line 97), up to the
exception description. -/
def exHead : String := "[TimedWorker] unhandled exception: "

/-- The full log line written for a caught `std::exception` with description
`w` (line 97). -/
def exMsg (w : String) : String := exHead ++ w ++ "\n"

/-- The log line written for a caught non-`std::exception` failure (line 99). -/
def unknownExMsg : String := "[TimedWorker] unknown exception\n"

/-- The forced-detach diagnostic written by the destructor (line 72). -/
def forcedDetachMsg : String := "[TimedWorker] FORCED detach – resources may leak\n"

/-- How one run of the user callable ends, as the `catch` ladder of the thread
body distinguishes the cases (lines 95-100). -/
inductive TaskOutcome where
  | normal
  | stdException (what : String)
  | otherException
deriving Repr, DecidableEq

/-- The thread body (lines 87-101) after the `std::stop_callback` has been set
up: run the callable, catch any failure, log it, then store `_done := true`.
`logFails msg` says whether appending `msg` to the log sink throws.  The catch
handlers' log writes are not guarded in the source, so a throwing write
propagates out of the runner (`Except.error ()`) and `_done` is never set. -/
def taskRunner (logFails : String → Bool) (outcome : TaskOutcome)
    (s : WorkerState) (log : List String) :
    Except Unit (WorkerState × List String) :=
  let s1 := registerCallback s
  match outcome with
  | .normal => .ok (markDone s1, log)
  | .stdException w =>
      if logFails (exMsg w) then .error ()
      else .ok (markDone s1, log ++ [exMsg w])
  | .otherException =>
      if logFails unknownExMsg then .error ()
      else .ok (markDone s1, log ++ [unknownExMsg])

/-- Which control path the destructor took. `noThread` is the `joinable()`
false case (line 47), `quickJoin` the `_done` fast path (lines 50-54),
`raceJoined` the bounded wait won by the join, `raceDetached` the timed-out
branch (lines 67-78). -/
inductive DtorPath where
  | noThread
  | quickJoin
  | raceJoined
  | raceDetached
deriving Repr, DecidableEq

/-- Observable result of running the destructor: the final member state, the
lines appended to the log sink, the absolute time at which the destructor
returns (`none` = never), and the control path taken. -/
structure DtorOutcome where
  state : WorkerState
  logOut : List String
  endTime : Option Nat
  path : DtorPath
deriving Repr, DecidableEq

/-- The destructor (lines 45-80), run at absolute time `now` on a worker
thread that terminates at absolute time `threadEnd` (`none` = never).

In the race branch, `_thr` is moved into the `std::async` lambda, the wait is
`fut.wait_until(deadline)`, and on timeout the forced-detach line is written
inside `try { } catch (...) { }` (so a failing write is discarded) and
`detach()` sets `_detached := true`.  The future returned by `std::async`
blocks in its destructor until the launched `thr.join()` finishes, so the
timed-out branch returns only at `threadEnd` (never, if the thread never
exits). -/
def dtorRun (s : WorkerState) (now : Nat) (threadEnd : Option Nat)
    (logFails : String → Bool) : DtorOutcome :=
  if s.thrJoinable then
    if s.done then
      { state := { s with thrJoinable := false }
        logOut := []
        endTime := threadEnd.map (fun t => max now t)
        path := .quickJoin }
    else
      let nominal := min (now + s.timeout) s.absDeadline
      let s1 := requestStop s
      let deadline := if s1.emergency then now else nominal
      let s2 := { s1 with thrJoinable := false }
      match threadEnd with
      | some t =>
          if t ≤ deadline then
            { state := s2
              logOut := []
              endTime := some (max now t)
              path := .raceJoined }
          else
            { state := { s2 with detached := true }
              logOut := if logFails forcedDetachMsg then [] else [forcedDetachMsg]
              endTime := some (max now (max deadline t))
              path := .raceDetached }
      | none =>
          { state := { s2 with detached := true }
            logOut := if logFails forcedDetachMsg then [] else [forcedDetachMsg]
            endTime := none
            path := .raceDetached }
  else
    { state := s, logOut := [], endTime := some now, path := .noThread }

/-- The public operations an owner or the runner can perform on the shared
state during the handle's lifetime (before destruction). -/
inductive Op where
  | reqStop
  | emergStop
  | regCb
  | finishTask
deriving Repr, DecidableEq

/-- Effect of each operation on the shared state. -/
def step : Op → WorkerState → WorkerState
  | .reqStop, s => requestStop s
  | .emergStop, s => emergencyStop s
  | .regCb, s => registerCallback s
  | .finishTask, s => markDone s

/-- States reachable from construction by any interleaving of the public
operations and the runner's actions. -/
inductive Reachable (timeout ctorTime : Nat) : WorkerState → Prop where
  | start : Reachable timeout ctorTime (initState timeout ctorTime)
  | next : ∀ {s} (op : Op), Reachable timeout ctorTime s →
      Reachable timeout ctorTime (step op s)

/-- Kinds of non-static data member of `TimedWorker` (lines 112-118), as far
as the implicit special-member-function rules care. -/
inductive MemberKind where
  | durationMs
  | timePoint
  | jthreadHandle
  | atomicBool
  | plainBool
  | lvalueRef
deriving Repr, DecidableEq

/-- Whether a member of this kind is move-constructible (`std::atomic` has
deleted copy operations and no move operations). -/
def moveCtorOk : MemberKind → Bool
  | .atomicBool => false
  | _ => true

/-- Whether a member of this kind is move-assignable (`std::atomic` is not,
and a reference member cannot be rebound). -/
def moveAssignOk : MemberKind → Bool
  | .atomicBool => false
  | .lvalueRef => false
  | _ => true

/-- The member list of `TimedWorker`: `_timeout`, `_absDeadline`, `_thr`,
`_done`, `_emergency`, `_detached`, `_log` (lines 112-118). -/
def timedWorkerMembers : List MemberKind :=
  [.durationMs, .timePoint, .jthreadHandle, .atomicBool, .atomicBool,
   .plainBool, .lvalueRef]

/-- The defaulted move constructor (line 40) is usable iff every member is
move-constructible; otherwise it is defined as deleted and ignored by
overload resolution. -/
def defaultedMoveCtorUsable : Bool :=
  timedWorkerMembers.all moveCtorOk

/-- The defaulted move assignment (line 41) is usable iff every member is
move-assignable. -/
def defaultedMoveAssignUsable : Bool :=
  timedWorkerMembers.all moveAssignOk

/-- The copy constructor is explicitly deleted (line 42). -/
def copyCtorAvailable : Bool := false

/-- A move expression binding a `TimedWorker` rvalue to a new object is
well-formed iff the (non-deleted) move constructor or, as fallback, the copy
constructor is available. -/
def timedWorkerMovable : Bool :=
  defaultedMoveCtorUsable || copyCtorAvailable

/-! Helper lemmas about the primitive operations. -/

theorem requestStop_stopRequested (s : WorkerState) :
    (requestStop s).stopRequested = true := by
  unfold requestStop
  split
  · assumption
  · rfl

theorem requestStop_done (s : WorkerState) : (requestStop s).done = s.done := by
  unfold requestStop
  split <;> rfl

theorem requestStop_detached (s : WorkerState) :
    (requestStop s).detached = s.detached := by
  unfold requestStop
  split <;> rfl

theorem step_preserves_detached (op : Op) (s : WorkerState) :
    (step op s).detached = s.detached := by
  cases op
  · exact requestStop_detached s
  · rfl
  · rfl
  · rfl

theorem dtorRun_state_done (s : WorkerState) (now : Nat) (te : Option Nat)
    (f : String → Bool) : (dtorRun s now te f).state.done = s.done := by
  unfold dtorRun
  split
  · split
    · rfl
    · cases te
      · exact requestStop_done s
      · dsimp only
        split <;> split <;> exact requestStop_done s
  · rfl

theorem dtorRun_join_wins (s : WorkerState) (now t : Nat) (f : String → Bool)
    (hj : s.thrJoinable = true) (hd : s.done = false)
    (hle : t ≤ (if (requestStop s).emergency then now
                else min (now + s.timeout) s.absDeadline)) :
    dtorRun s now (some t) f =
      { state := { requestStop s with thrJoinable := false }
        logOut := []
        endTime := some (max now t)
        path := DtorPath.raceJoined } := by
  unfold dtorRun
  simp only [hj, hd, if_true, Bool.false_eq_true, if_false]
  rw [if_pos hle]

theorem dtorRun_join_loses (s : WorkerState) (now t : Nat) (f : String → Bool)
    (hj : s.thrJoinable = true) (hd : s.done = false)
    (hgt : ¬ t ≤ (if (requestStop s).emergency then now
                  else min (now + s.timeout) s.absDeadline)) :
    dtorRun s now (some t) f =
      { state := { requestStop s with thrJoinable := false, detached := true }
        logOut := if f forcedDetachMsg then [] else [forcedDetachMsg]
        endTime := some (max now (max (if (requestStop s).emergency then now
                  else min (now + s.timeout) s.absDeadline) t))
        path := DtorPath.raceDetached } := by
  unfold dtorRun
  simp only [hj, hd, if_true, Bool.false_eq_true, if_false]
  rw [if_neg hgt]

theorem cb_and_stop_imply_emergency (timeout ctorTime : Nat)
    (s : WorkerState) (h : Reachable timeout ctorTime s) :
    s.cbRegistered = true → s.stopRequested = true → s.emergency = true := by
  induction h with
  | start =>
      intro hc
      exact absurd hc (by simp [initState])
  | @next s op h ih =>
      cases op with
      | reqStop =>
          by_cases hq : s.stopRequested = true
          · simpa [step, requestStop, hq] using ih
          · intro hc _
            simp [step, requestStop, hq] at hc ⊢
            simp [hc]
      | emergStop => intro _ _; rfl
      | regCb =>
          intro _ hs
          simp [step, registerCallback] at hs ⊢
          simp [hs]
      | finishTask => exact ih

/-- Claim C1 (code divergence): a handle built at t=0 with a 10ms timeout is
destroyed at t=5 while the task is still running and never finishes (it
ignores cancellation forever).  The destructor reaches the forced-detach
branch and sets `_detached`, but because the `std::async` future's destructor
blocks until the launched `thr.join()` completes, the destructor never
returns: `endTime = none`, contradicting the claimed bound
min(now + timeout, absolute_deadline) = 10. -/
theorem c1_teardown_blocks_past_deadline :
    (dtorRun (initState 10 0) 5 none (fun _ => false)).path = DtorPath.raceDetached ∧
    (dtorRun (initState 10 0) 5 none (fun _ => false)).state.detached = true ∧
    (dtorRun (initState 10 0) 5 none (fun _ => false)).endTime = none :=
  ⟨rfl, rfl, rfl⟩

/-- Claim C2: when teardown starts on an owning handle whose task has not
completed, a cooperative stop request is issued (`stopRequested` is true in
the final state), and the wait deadline actually used is
`if escalated-after-the-stop-request then now else min (now + timeout) absDeadline`:
the join wins the race exactly when the thread ends by that deadline. -/
theorem c2_teardown_deadline (s : WorkerState) (now t : Nat) (f : String → Bool)
    (hj : s.thrJoinable = true) (hd : s.done = false) :
    (dtorRun s now (some t) f).state.stopRequested = true ∧
    ((dtorRun s now (some t) f).path = DtorPath.raceJoined ↔
      t ≤ (if (requestStop s).emergency then now
           else min (now + s.timeout) s.absDeadline)) := by
  have hs := requestStop_stopRequested s
  unfold dtorRun
  simp only [hj, hd, if_true, Bool.false_eq_true, if_false]
  cases hcase : (requestStop s).emergency with
  | true =>
      simp only [hcase, if_true]
      split
      · exact ⟨hs, by simp_all⟩
      · exact ⟨hs, by simp_all⟩
  | false =>
      simp only [hcase, Bool.false_eq_true, if_false]
      split
      · exact ⟨hs, by simp_all⟩
      · exact ⟨hs, by simp_all⟩

/-- Witness for C2 at a concrete state: fresh worker, timeout 10, destroyed at
t=0 with the thread finishing at t=3. -/
theorem c2_witness :
    (dtorRun (initState 10 0) 0 (some 3) (fun _ => false)).state.stopRequested = true ∧
    ((dtorRun (initState 10 0) 0 (some 3) (fun _ => false)).path = DtorPath.raceJoined ↔
      3 ≤ (if (requestStop (initState 10 0)).emergency then 0
           else min (0 + (initState 10 0).timeout) (initState 10 0).absDeadline)) :=
  c2_teardown_deadline (initState 10 0) 0 3 (fun _ => false) rfl rfl

/-- Claim C3: in any state reachable through the public operations in which
the runner has registered its stop callback, a cooperative stop request
leaves `escalated` true; consequently a teardown running from such a state
collapses its wait deadline to `now` — any thread that ends strictly after
`now` loses the race and is force-detached. -/
theorem c3_stop_request_escalates (timeout ctorTime : Nat) (s : WorkerState)
    (h : Reachable timeout ctorTime s) (hc : s.cbRegistered = true) :
    (requestStop s).emergency = true ∧
    (∀ (now t : Nat) (f : String → Bool), s.thrJoinable = true → s.done = false →
      now < t →
      (dtorRun s now (some t) f).path = DtorPath.raceDetached ∧
      (dtorRun s now (some t) f).state.detached = true) := by
  have hemerg : (requestStop s).emergency = true := by
    by_cases hq : s.stopRequested = true
    · have he := cb_and_stop_imply_emergency timeout ctorTime s h hc hq
      simp [requestStop, hq, he]
    · simp [requestStop, hq, hc]
  refine ⟨hemerg, ?_⟩
  intro now t f hj hd hlt
  have hgt : ¬ t ≤ (if (requestStop s).emergency then now
      else min (now + s.timeout) s.absDeadline) := by
    simp only [hemerg, if_true]
    omega
  rw [dtorRun_join_loses s now t f hj hd hgt]
  exact ⟨rfl, rfl⟩

/-- Witness for C3: the runner of a fresh worker has registered its callback;
teardown at t=0 against a thread ending at t=5 force-detaches. -/
theorem c3_witness :
    (requestStop (step Op.regCb (initState 10 0))).emergency = true ∧
    (dtorRun (step Op.regCb (initState 10 0)) 0 (some 5) (fun _ => false)).path
        = DtorPath.raceDetached := by
  have h := c3_stop_request_escalates 10 0 (step Op.regCb (initState 10 0))
    (Reachable.next Op.regCb Reachable.start) rfl
  exact ⟨h.1, (h.2 0 5 (fun _ => false) rfl rfl (by omega)).1⟩

/-- Claim C4: the `completed` flag is monotonic — no public operation and no
teardown run ever clears it; only the runner's final action (`finishTask`)
sets it; and the Task Runner sets it on every path on which it completes
(normal return, or a contained failure whose diagnostic could be written). -/
theorem c4_done_monotonic :
    (∀ (op : Op) (s : WorkerState), s.done = true → (step op s).done = true) ∧
    (∀ (s : WorkerState) (now : Nat) (te : Option Nat) (f : String → Bool),
      (dtorRun s now te f).state.done = s.done) ∧
    (∀ (op : Op) (s : WorkerState), op ≠ Op.finishTask → (step op s).done = s.done) ∧
    (∀ (f : String → Bool) (o : TaskOutcome) (s s2 : WorkerState)
      (lg lg2 : List String),
      taskRunner f o s lg = Except.ok (s2, lg2) → s2.done = true) ∧
    (∀ (o : TaskOutcome) (s : WorkerState) (lg : List String),
      ∃ s2 lg2, taskRunner (fun _ => false) o s lg = Except.ok (s2, lg2) ∧
        s2.done = true) := by
  refine ⟨?_, dtorRun_state_done, ?_, ?_, ?_⟩
  · intro op s hdone
    cases op with
    | reqStop => exact (requestStop_done s).trans hdone
    | emergStop => exact hdone
    | regCb => exact hdone
    | finishTask => rfl
  · intro op s hne
    cases op with
    | reqStop => exact requestStop_done s
    | emergStop => rfl
    | regCb => rfl
    | finishTask => exact absurd rfl hne
  · intro f o s s2 lg lg2 hok
    cases o with
    | normal =>
        simp only [taskRunner, Except.ok.injEq, Prod.mk.injEq] at hok
        obtain ⟨h1, -⟩ := hok
        subst h1
        rfl
    | stdException w =>
        simp only [taskRunner] at hok
        split at hok
        · simp at hok
        · simp only [Except.ok.injEq, Prod.mk.injEq] at hok
          obtain ⟨h1, -⟩ := hok
          subst h1
          rfl
    | otherException =>
        simp only [taskRunner] at hok
        split at hok
        · simp at hok
        · simp only [Except.ok.injEq, Prod.mk.injEq] at hok
          obtain ⟨h1, -⟩ := hok
          subst h1
          rfl
  · intro o s lg
    cases o with
    | normal => exact ⟨markDone (registerCallback s), lg, rfl, rfl⟩
    | stdException w =>
        exact ⟨markDone (registerCallback s), lg ++ [exMsg w], rfl, rfl⟩
    | otherException =>
        exact ⟨markDone (registerCallback s), lg ++ [unknownExMsg], rfl, rfl⟩

/-- Witness for C4: a completed worker keeps `completed` true across a
cooperative stop request. -/
theorem c4_witness :
    (step Op.reqStop (markDone (initState 1 0))).done = true :=
  c4_done_monotonic.1 Op.reqStop (markDone (initState 1 0)) rfl

/-- Claim C5 fails as stated: with a log sink whose write throws, a task that
raises a recognized-kind failure (description "oops") makes the Task Runner
itself propagate the logging failure — teardown-visible completion is never
recorded and the run ends in an escaped failure instead of a log line. -/
theorem c5_counterexample :
    taskRunner (fun _ => true) (TaskOutcome.stdException "oops") (initState 100 0) []
      = Except.error () := rfl

/-- Claim C5 (amended): every failure raised by the user callable is caught by
the runner; if the diagnostic write succeeds, a recognized-kind failure
appends the fixed head plus the description, an unrecognized-kind failure
appends the unknown marker, and `completed` becomes true; if the diagnostic
write fails, the logging failure propagates out of the runner and `completed`
is never set. -/
theorem c5_failure_containment (f : String → Bool) (w : String)
    (s : WorkerState) (lg : List String) :
    (f (exMsg w) = false →
      taskRunner f (TaskOutcome.stdException w) s lg
        = Except.ok (markDone (registerCallback s), lg ++ [exHead ++ w ++ "\n"]) ∧
      (markDone (registerCallback s)).done = true) ∧
    (f (exMsg w) = true →
      taskRunner f (TaskOutcome.stdException w) s lg = Except.error ()) ∧
    (f unknownExMsg = false →
      taskRunner f TaskOutcome.otherException s lg
        = Except.ok (markDone (registerCallback s), lg ++ [unknownExMsg]) ∧
      (markDone (registerCallback s)).done = true) ∧
    (f unknownExMsg = true →
      taskRunner f TaskOutcome.otherException s lg = Except.error ()) ∧
    (taskRunner f TaskOutcome.normal s lg
        = Except.ok (markDone (registerCallback s), lg) ∧
      (markDone (registerCallback s)).done = true) := by
  refine ⟨?_, ?_, ?_, ?_, rfl, rfl⟩
  · intro hf
    refine ⟨?_, rfl⟩
    simp only [taskRunner, hf, Bool.false_eq_true, if_false]
    rfl
  · intro hf
    simp [taskRunner, hf]
  · intro hf
    refine ⟨?_, rfl⟩
    simp only [taskRunner, hf, Bool.false_eq_true, if_false]
  · intro hf
    simp [taskRunner, hf]

/-- Witness for C5 with a non-throwing sink and description "oops". -/
theorem c5_witness :
    taskRunner (fun _ => false) (TaskOutcome.stdException "oops") (initState 1 0) []
        = Except.ok (markDone (registerCallback (initState 1 0)),
            [] ++ [exHead ++ "oops" ++ "\n"]) ∧
    (markDone (registerCallback (initState 1 0))).done = true :=
  (c5_failure_containment (fun _ => false) "oops" (initState 1 0) []).1 rfl

/-- Claim C6 fails as stated: a failure while writing the Task Runner's
unknown-failure diagnostic is not caught — it escalates out of the runner
instead of being discarded. -/
theorem c6_counterexample :
    taskRunner (fun _ => true) TaskOutcome.otherException (initState 100 0) []
      = Except.error () := rfl

/-- Claim C6 (amended): only teardown's forced-detach write is guarded — the
destructor's observable behaviour (final state, return time, control path)
does not depend on the sink at all and a throwing sink simply loses the log
line; the Task Runner's failure-logging writes are unguarded and a failure
there propagates out of the runner. -/
theorem c6_log_failure_policy (s : WorkerState) (now : Nat) (te : Option Nat)
    (f g : String → Bool) :
    ((dtorRun s now te f).state = (dtorRun s now te g).state ∧
     (dtorRun s now te f).endTime = (dtorRun s now te g).endTime ∧
     (dtorRun s now te f).path = (dtorRun s now te g).path ∧
     (dtorRun s now te (fun _ => true)).logOut = []) ∧
    (∀ w : String,
      taskRunner (fun _ => true) (TaskOutcome.stdException w) s []
        = Except.error ()) := by
  refine ⟨⟨?_, ?_, ?_, ?_⟩, ?_⟩
  · unfold dtorRun
    split
    · split
      · rfl
      · cases te
        · rfl
        · dsimp only
          split <;> split <;> rfl
    · rfl
  · unfold dtorRun
    split
    · split
      · rfl
      · cases te
        · rfl
        · dsimp only
          split <;> split <;> rfl
    · rfl
  · unfold dtorRun
    split
    · split
      · rfl
      · cases te
        · rfl
        · dsimp only
          split <;> split <;> rfl
    · rfl
  · unfold dtorRun
    split
    · split
      · rfl
      · cases te
        · rfl
        · dsimp only
          split <;> split <;> rfl
    · rfl
  · intro w
    rfl

/-- Claim C10: in every state reachable through the public operation surface
(stop requests, emergency stop, the runner's callback registration and
completion), `detached` is still false: only the destructor's forced-detach
branch ever sets it, and no public operation triggers teardown early. -/
theorem c10_detached_false_while_alive (timeout ctorTime : Nat)
    (s : WorkerState) (h : Reachable timeout ctorTime s) :
    s.detached = false := by
  induction h with
  | start => rfl
  | @next s op h ih => rw [step_preserves_detached]; exact ih

/-- Witness for C10 after a stop request followed by an emergency stop. -/
theorem c10_witness :
    (step Op.emergStop (step Op.reqStop (initState 3 0))).detached = false :=
  c10_detached_false_while_alive 3 0 _
    (Reachable.next Op.emergStop (Reachable.next Op.reqStop Reachable.start))

/-- Claim C7 (code divergence): `emergency_stop()` was called on a handle
built at t=0 with a 100ms timeout; the handle is destroyed at t=10 while the
uncooperative task runs until t=600.  Escalation does collapse the wait
deadline to `now`, and the immediate check decides forced detach, but the
destructor still only returns at t=600 when the ignored thread exits, because
the `std::async` future's destructor waits for the join to finish. -/
theorem c7_emergency_teardown_still_blocks :
    (dtorRun (emergencyStop (initState 100 0)) 10 (some 600) (fun _ => false)).path
        = DtorPath.raceDetached ∧
    (dtorRun (emergencyStop (initState 100 0)) 10 (some 600) (fun _ => false)).state.detached
        = true ∧
    (dtorRun (emergencyStop (initState 100 0)) 10 (some 600) (fun _ => false)).endTime
        = some 600 :=
  ⟨rfl, rfl, rfl⟩

/-- Claim C8: if `completed` is already true when the destructor runs on an
owning handle, teardown takes the quick-join path, leaves `abandoned` false
and writes nothing to the log. -/
theorem c8_done_means_clean_join (s : WorkerState) (now t : Nat)
    (f : String → Bool) (hj : s.thrJoinable = true) (hd : s.done = true)
    (hdet : s.detached = false) :
    (dtorRun s now (some t) f).path = DtorPath.quickJoin ∧
    (dtorRun s now (some t) f).state.detached = false ∧
    (dtorRun s now (some t) f).logOut = [] := by
  unfold dtorRun
  simp [hj, hd, hdet]

/-- Witness for C8 at a concrete completed worker. -/
theorem c8_witness :
    (dtorRun (markDone (initState 5 0)) 7 (some 3) (fun _ => false)).path
        = DtorPath.quickJoin ∧
    (dtorRun (markDone (initState 5 0)) 7 (some 3) (fun _ => false)).state.detached
        = false ∧
    (dtorRun (markDone (initState 5 0)) 7 (some 3) (fun _ => false)).logOut = [] :=
  c8_done_means_clean_join (markDone (initState 5 0)) 7 3 (fun _ => false) rfl rfl rfl

/-- Claim C9 (code divergence): `TimedWorker` defaults its move operations
(lines 40-41) and deletes its copy operations (lines 42-43), but the two
`std::atomic_bool` members are not move-constructible, so the defaulted move
constructor is defined as deleted (and ignored by overload resolution, which
then finds only the deleted copy constructor); the reference member `_log`
additionally makes the defaulted move assignment deleted.  No move of a
handle can compile, so no moved-from handle can ever be destroyed. -/
theorem c9_handle_not_movable :
    defaultedMoveCtorUsable = false ∧ defaultedMoveAssignUsable = false ∧
    timedWorkerMovable = false := by
  decide

end TW
